import Mathlib

/-!
Shallow embedding of pack/multitxn2/aslib/dbg.py (class Dbg), the leveled
logging and tracing helper.  Pure data is modelled directly; frame
introspection (inspect.currentframe walks, sys._getframe depth counting) is
modelled by passing the observed call site explicitly as a CallSite value,
and datetime.now().strftime is modelled by passing the already formatted
timestamp string as an argument.  Output is modelled as the list of strings
written to stdout and the list of strings written to the log file handle.
-/

namespace Dbg

/-- Call site data as observed by the frame introspection in dbg.py:
fnm is the realpath base name of the file of the observed frame, func its
code object name, ln its current line, and dpth the stack depth that
Dbg.__frame_depth reports at the observation point. -/
structure CallSite where
  fnm : String
  func : String
  ln : Int
  dpth : Int
deriving DecidableEq, Repr

/-- Configuration state of one Dbg object.  Fields mirror the class body
defaults of dbg.py lines 83-96; log_attached stands for the presence of an
open log file handle (log_fp is not None). -/
structure Config where
  dlvl : Int
  trc : Bool
  log_attached : Bool
  log_only : Bool
  force_out : Bool
  date_n_time : Bool
  file_n_line : Bool
  hdr_date_format : String
  file_func_line : Bool
  fnm : Option String
  func : Option String
  ln_beg : Option Int
  ln_end : Option Int
deriving DecidableEq, Repr

/-- Everything one call writes: the strings passed to sys.stdout.write and
the strings passed to self.log_fp.write, in order. -/
structure Output where
  console : List String
  file : List String
deriving DecidableEq, Repr

/-- No output at all. -/
def Output.empty : Output := ⟨[], []⟩

/-- Concatenation of two outputs, sink by sink. -/
def Output.append (a b : Output) : Output :=
  ⟨a.console ++ b.console, a.file ++ b.file⟩

/-- Output level constants of dbg.py line 69. -/
def NONE : Int := -1

/-- ANY equals NONE, dbg.py line 69. -/
def ANY : Int := -1

/-- OUT level, dbg.py line 69. -/
def OUT : Int := 0

/-- ERR level, dbg.py line 69. -/
def ERR : Int := 1

/-- WRN level, dbg.py line 69. -/
def WRN : Int := 2

/-- INF level, dbg.py line 69. -/
def INF : Int := 3

/-- DBG level, dbg.py line 69. -/
def DBG : Int := 4

/-- DB2 level, dbg.py line 69. -/
def DB2 : Int := 5

/-- IDB level, dbg.py line 69. -/
def IDB : Int := 6

/-- LOG level, dbg.py line 69. -/
def LOG : Int := 7

/-- The levels dict of dbg.py lines 72-75, in insertion order. -/
def levels : List (String × Int) :=
  [("none", -1), ("any", -1), ("out", 0), ("err", 1), ("wrn", 2), ("inf", 3),
   ("dbg", 4), ("db2", 5), ("idb", 6), ("log", 7)]

/-- Reverse level lookup, the idiom
list(levels.keys())[list(levels.values()).index(dlvl)] of dbg.py: the key of
the first entry holding the value.  Python raises ValueError when the value
is absent; the modelled paths only apply it to values present in the table,
where we return the placeholder below. -/
def lvlName (dlvl : Int) : String :=
  match levels.find? (fun p => p.2 == dlvl) with
  | some p => p.1
  | none => "<badlvl>"

/-- Class body defaults of dbg.py lines 83-96 for a fresh process: level err,
no trace, no log file, stdout enabled, force_out true, both headers on,
millisecond date format, no filters. -/
def defaultCfg : Config :=
  { dlvl := ERR, trc := false, log_attached := false, log_only := false,
    force_out := true, date_n_time := true, file_n_line := true,
    hdr_date_format := "%Y-%m-%d %H:%M:%S.%f", file_func_line := false,
    fnm := none, func := none, ln_beg := none, ln_end := none }

/-- Dbg.__format_line (dbg.py lines 196-227): build the optional header from
the date flag and the file and line flag, wrap it in square brackets when
either part is present, and return header plus text plus a newline.  The
frame walk that recovers fnm, func and ln is the site argument; now is the
strftime result. -/
def format_line (cfg : Config) (now : String) (dlvl : Int) (site : CallSite)
    (txt : String) : String :=
  let hdr := ""
  let hdr := if cfg.date_n_time then hdr ++ now ++ " " ++ lvlName dlvl else hdr
  let hdr :=
    if cfg.file_n_line then
      let funcStr := if site.func == "<module>" then "__main__:" else site.func ++ "():"
      (if cfg.date_n_time then hdr ++ " " else hdr) ++
        site.fnm ++ ":" ++ funcStr ++ toString site.ln
    else hdr
  let hdr := if cfg.file_n_line || cfg.date_n_time then "[" ++ hdr ++ "] " else hdr
  hdr ++ txt ++ "\n"

/-- Condition of dbg.py line 249: a file name filter is set and the observed
file name differs from it. -/
def fnmReject (cfg : Config) (site : CallSite) : Bool :=
  match cfg.fnm with
  | some f => decide (site.fnm ≠ f)
  | none => false

/-- Condition of dbg.py line 254: a line begin filter is set and the observed
line is below it. -/
def lnBegReject (cfg : Config) (site : CallSite) : Bool :=
  match cfg.ln_beg with
  | some b => decide (site.ln < b)
  | none => false

/-- Condition of dbg.py line 255: a line end filter is set and the observed
line is above it. -/
def lnEndReject (cfg : Config) (site : CallSite) : Bool :=
  match cfg.ln_end with
  | some e => decide (site.ln > e)
  | none => false

/-- Splitting of a character list at every occurrence of the separator,
keeping empty pieces, as Python str.split with an explicit separator does. -/
def splitChar (sep : Char) : List Char → List (List Char)
  | [] => [[]]
  | c :: rest =>
      let r := splitChar sep rest
      if c == sep then [] :: r
      else
        match r with
        | h :: t => (c :: h) :: t
        | [] => [c] :: []

/-- Python str.split with the comma separator, as in self.func.split(',')
of dbg.py line 251: the empty string yields one empty piece, and empty
pieces between adjacent commas are kept. -/
def pySplitComma (s : String) : List String :=
  (splitChar ',' s.data).map (fun cs => String.mk cs)

/-- Dbg.__filter (dbg.py lines 231-257): true means suppress.  The file name
check runs first; when a function name filter is present the verdict is
decided entirely by membership of the observed function in the comma
delimited list (a match returns False at once, skipping the line range
checks); only when no function filter is present are the line begin and line
end bounds consulted. -/
def filterSite (cfg : Config) (site : CallSite) : Bool :=
  if fnmReject cfg site then true
  else
    match cfg.func with
    | some fl =>
        if (pySplitComma fl).contains site.func then false else true
    | none =>
        if lnBegReject cfg site then true
        else if lnEndReject cfg site then true
        else false

/-- Python string repetition of the two space indent unit; a non positive
count yields the empty string, as in Python. -/
def wsIndent (n : Int) : String :=
  String.join (List.replicate n.toNat "  ")

/-- Dbg.__print (dbg.py lines 302-318): run the live filter at the observed
site; if it passes, write the line formatted by format_line to the log file
when one is attached, and write the raw text (with trace indentation, never a
header) to stdout unless log_only is set.  dpth is the optional depth
argument; when absent the live frame depth of the site is used.  The clause
honoring force_out is commented out in the source (line 309), so the stdout
write is guarded solely by log_only. -/
def printLine (cfg : Config) (now : String) (dlvl : Int) (txt : String)
    (dpth : Option Int) (site : CallSite) : Output :=
  if filterSite cfg site then Output.empty
  else
    let fileLines :=
      if cfg.log_attached then [format_line cfg now dlvl site txt] else []
    let consoleLines :=
      if !cfg.log_only then
        let ws :=
          if cfg.trc && !cfg.log_only then
            let wd : Int :=
              match dpth with
              | some d => d - 2
              | none => site.dpth - 3
            wsIndent wd
          else ""
        [ws ++ txt ++ "\n"]
      else []
    ⟨consoleLines, fileLines⟩

/-- Common shape of the eight level gated emit wrappers of dbg.py lines
321-336: if self.dlvl >= LEVEL then self.__print (LEVEL, txt). -/
def emitAt (cfg : Config) (now : String) (lvl : Int) (site : CallSite)
    (txt : String) : Output :=
  if cfg.dlvl ≥ lvl then printLine cfg now lvl txt none site else Output.empty

/-- Dbg.any (dbg.py line 321). -/
def any (cfg : Config) (now : String) (site : CallSite) (txt : String) : Output :=
  emitAt cfg now ANY site txt

/-- Dbg.out (dbg.py line 323). -/
def out (cfg : Config) (now : String) (site : CallSite) (txt : String) : Output :=
  emitAt cfg now OUT site txt

/-- Dbg.err (dbg.py line 325). -/
def err (cfg : Config) (now : String) (site : CallSite) (txt : String) : Output :=
  emitAt cfg now ERR site txt

/-- Dbg.wrn (dbg.py line 327). -/
def wrn (cfg : Config) (now : String) (site : CallSite) (txt : String) : Output :=
  emitAt cfg now WRN site txt

/-- Dbg.inf (dbg.py line 329). -/
def inf (cfg : Config) (now : String) (site : CallSite) (txt : String) : Output :=
  emitAt cfg now INF site txt

/-- Dbg.dbg (dbg.py line 331). -/
def dbg (cfg : Config) (now : String) (site : CallSite) (txt : String) : Output :=
  emitAt cfg now DBG site txt

/-- Dbg.db2 (dbg.py line 333). -/
def db2 (cfg : Config) (now : String) (site : CallSite) (txt : String) : Output :=
  emitAt cfg now DB2 site txt

/-- Dbg.log (dbg.py line 335). -/
def log (cfg : Config) (now : String) (site : CallSite) (txt : String) : Output :=
  emitAt cfg now LOG site txt

/-- One element of the dmsgs buffer, the mobj dict of dbg.py lines 114-115. -/
structure MsgObj where
  lvl : String
  fnm : String
  func : String
  ln : Int
  txt : String
  dlvl : Int
  dpth : Int
deriving DecidableEq, Repr

/-- Dbg.msg (dbg.py lines 99-116): validate the numeric level, capture the
caller site, and append the message object to the buffer.  The observed file,
function, line and depth are the site argument. -/
def msg (dmsgs : List MsgObj) (dlvl : Int) (site : CallSite) (txt : String) :
    Except String (List MsgObj) :=
  if dlvl < ANY ∨ dlvl > LOG then
    Except.error ("Debug level of \x27" ++ toString dlvl ++ "\x27 not recognized.")
  else
    Except.ok (dmsgs ++
      [⟨lvlName dlvl, site.fnm, site.func, site.ln, txt, dlvl, site.dpth⟩])

/-- Dbg.errs (dbg.py lines 151-153): true when the buffer is non empty. -/
def errs (dmsgs : List MsgObj) : Bool :=
  if dmsgs.length > 0 then true else false

/-- Dbg.clr (dbg.py lines 157-158): empty the buffer. -/
def clr (dmsgs : List MsgObj) : List MsgObj := []

/-- The per message skip tests of Dbg.msgs (dbg.py lines 133-137), applied to
the override arguments only (the ambient config filters are not consulted on
this path).  Note line 137 skips a message whose line is greater than or
EQUAL to ln_end: the replay range is end exclusive. -/
def drainSkip (dlvlO : Option Int) (fnmO funcO : Option String)
    (ln_begO ln_endO : Option Int) (m : MsgObj) : Bool :=
  (match dlvlO with | some d => decide (m.dlvl > d) | none => false) ||
  (match fnmO with | some f => decide (m.fnm ≠ f) | none => false) ||
  (match funcO with | some f => decide (m.func ≠ f) | none => false) ||
  (match ln_begO with | some b => decide (m.ln < b) | none => false) ||
  (match ln_endO with | some e => decide (m.ln ≥ e) | none => false)

/-- The ffl text decoration of dbg.py lines 139-141. -/
def fflText (m : MsgObj) : String :=
  m.fnm ++ ":" ++ m.func ++ "():" ++ toString m.ln ++ "(" ++ toString m.dpth ++
    ") " ++ m.lvl ++ " " ++ m.txt

/-- Dbg.msgs (dbg.py lines 127-146): optionally print a banner at OUT level,
then replay each buffered message that survives the override skip tests
through Dbg.__print, passing the recorded depth; the level printed is the
recorded one unless a dlvl override is given; clear the buffer unless told to
retain it.  drainSite is the live call site observed by the frame walks of
__print during the drain (the caller of msgs), which is where the live filter
and the log file header are evaluated on this path.  Returns the output and
the remaining buffer. -/
def msgs (cfg : Config) (now : String) (dmsgs : List MsgObj)
    (banner : Option String) (dlvlO : Option Int) (fnmO funcO : Option String)
    (ln_begO ln_endO : Option Int) (fflO : Option Bool) (clrB : Bool)
    (drainSite : CallSite) : Output × List MsgObj :=
  let ffl := fflO.getD cfg.file_func_line
  let bannerOut :=
    match banner with
    | some b => printLine cfg now OUT b none drainSite
    | none => Output.empty
  let step := fun (m : MsgObj) =>
    if drainSkip dlvlO fnmO funcO ln_begO ln_endO m then Output.empty
    else
      let txt := if ffl then fflText m else m.txt
      let pdlvl := dlvlO.getD m.dlvl
      printLine cfg now pdlvl txt (some m.dpth) drainSite
  let total := (dmsgs.map step).foldl Output.append bannerOut
  (total, if clrB then [] else dmsgs)

/-- Dbg.__enter (dbg.py lines 264-278): when tracing is on and the live
filter passes, write the indented opening bracket line to stdout (unless
log_only) and its formatted version at DBG level to the log file (when
attached).  The function name, line and depth observed through the frames are
the site argument; the threshold dlvl is never consulted (the clause reading
it is commented out in the source). -/
def enterTrace (cfg : Config) (now : String) (site : CallSite) (m : String) :
    Output :=
  if !cfg.trc then Output.empty
  else if filterSite cfg site then Output.empty
  else
    let ws := wsIndent (site.dpth - 4)
    let ln := site.func ++ "(" ++ m ++ ") \x7b"
    let consoleLines := if !cfg.log_only then [ws ++ ln ++ "\n"] else []
    let fileLines :=
      if cfg.log_attached then [format_line cfg now DBG site ln] else []
    ⟨consoleLines, fileLines⟩

/-- Dbg.__leave (dbg.py lines 285-298): the closing bracket twin of
enterTrace, writing the closing line with the observed function name and
line number; again the threshold dlvl is never consulted. -/
def leaveTrace (cfg : Config) (now : String) (site : CallSite) (m : String) :
    Output :=
  if !cfg.trc then Output.empty
  else if filterSite cfg site then Output.empty
  else
    let ws := wsIndent (site.dpth - 4)
    let ln := "\x7d # " ++ site.func ++ ":" ++ toString site.ln ++ " " ++ m
    let consoleLines := if !cfg.log_only then [ws ++ ln ++ "\n"] else []
    let fileLines :=
      if cfg.log_attached then [format_line cfg now DBG site ln] else []
    ⟨consoleLines, fileLines⟩

/-- Dbg.__init__ (dbg.py lines 655-708): resolve the level name through the
levels dict (an unknown name raises ValueError), apply each given keyword
over the class defaults, and raise ValueError when log_only is requested
True with no log file.  A raise means no object is produced.  Opening the
log file is modelled by log_attached; an open failure is a separate runtime
error outside this model. -/
def init (lvl : String) (trc : Bool) (log_file : Option String)
    (log_only force_out date_n_time file_n_line : Option Bool)
    (hdr_date_format : Option String) (file_func_line : Option Bool)
    (file_name func_name : Option String) (line_begin line_end : Option Int) :
    Except String Config :=
  match levels.find? (fun p => p.1 == lvl) with
  | none => Except.error ("Debug level of \x27" ++ lvl ++ "\x27 not recognized.")
  | some p =>
      if log_only = some true ∧ log_file = none then
        Except.error "Can\x27t specify log_only and no log_file!"
      else
        Except.ok
          { dlvl := p.2, trc := trc, log_attached := log_file.isSome,
            log_only := log_only.getD defaultCfg.log_only,
            force_out := force_out.getD defaultCfg.force_out,
            date_n_time := date_n_time.getD defaultCfg.date_n_time,
            file_n_line := file_n_line.getD defaultCfg.file_n_line,
            hdr_date_format := hdr_date_format.getD defaultCfg.hdr_date_format,
            file_func_line := file_func_line.getD defaultCfg.file_func_line,
            fnm := file_name, func := func_name,
            ln_beg := line_begin, ln_end := line_end }

/-- An identity for one Dbg object, to speak about two distinct objects. -/
structure DbgInstance where
  name : String
deriving DecidableEq, Repr

/-- Attribute lookup for self.dmsgs.  dmsgs is initialized once in the class
body (dbg.py line 82) and no method ever rebinds self.dmsgs (msg appends in
place, msgs and clr call clear in place), so Python attribute resolution
finds the single class level list for every instance: the lookup necessarily
ignores which instance performs it. -/
def dmsgsOf (classDmsgs : List MsgObj) (inst : DbgInstance) : List MsgObj :=
  classDmsgs

/-- Dbg.errs invoked through a particular instance: it reads the buffer that
attribute lookup resolves for that instance. -/
def errsOn (classDmsgs : List MsgObj) (inst : DbgInstance) : Bool :=
  errs (dmsgsOf classDmsgs inst)

/-- Dbg.msg invoked through a particular instance: it appends to the buffer
that attribute lookup resolves for that instance, yielding the new shared
class level list. -/
def msgOn (classDmsgs : List MsgObj) (inst : DbgInstance) (dlvl : Int)
    (site : CallSite) (txt : String) : Except String (List MsgObj) :=
  msg (dmsgsOf classDmsgs inst) dlvl site txt

/-- Modelled from the spec: the suppression predicate exactly as section 4.3
words it — suppress if a file name filter is set and differs, OR a function
name filter is set and the function is not in the comma delimited list, OR a
line bound is set and the line falls outside the inclusive range.  Declared
only to be compared against filterSite, the predicate the source implements. -/
def suppressSpec (cfg : Config) (site : CallSite) : Bool :=
  fnmReject cfg site ||
  (match cfg.func with
   | some fl => !((pySplitComma fl).contains site.func)
   | none => false) ||
  lnBegReject cfg site || lnEndReject cfg site

/-- Configuration of scenario A: level err, file and line header on, date
header off, no log file. -/
def cfgScenA : Config := { defaultCfg with date_n_time := false }

/-- Scenario A with a log file attached. -/
def cfgScenALog : Config := { cfgScenA with log_attached := true }

/-- The scenario A call site: line 42 of file x inside function f. -/
def siteScenA : CallSite := ⟨"x", "f", 42, 5⟩

/-- Configuration with a function allow list and a line range both set. -/
def cfgFuncRange : Config :=
  { defaultCfg with func := some "f,g", ln_beg := some 10, ln_end := some 20 }

/-- Configuration with both header flags off. -/
def cfgNoHdr : Config :=
  { defaultCfg with date_n_time := false, file_n_line := false }

/-- Configuration at threshold dbg with a log file and log_only and
force_out set, as in the last test driver block of dbg.py. -/
def cfgLogOnly : Config :=
  { defaultCfg with
    dlvl := DBG, log_attached := true, log_only := true, force_out := true }

/-- Configuration at threshold dbg with the date header off. -/
def cfgDbgLvl : Config := { cfgScenA with dlvl := DBG }

/-- The message object that recording "t" at ERR level from siteScenA
produces. -/
def mObjErrT : MsgObj := ⟨"err", "x", "f", 42, "t", 1, 5⟩

/-- The message object that recording "boom" at ERR level from siteScenA
produces. -/
def mObjErrBoom : MsgObj := ⟨"err", "x", "f", 42, "boom", 1, 5⟩

/-- Configuration with only a line range set. -/
def cfgRangeOnly : Config :=
  { defaultCfg with ln_beg := some 10, ln_end := some 20 }

/-- A buffered message at line 15. -/
def mObjLn15 : MsgObj := ⟨"err", "x", "f", 15, "t", 1, 5⟩

/-- The message object that recording "xx" at DBG level from siteScenA
produces. -/
def mObjDbgXx : MsgObj := ⟨"dbg", "x", "f", 42, "xx", 4, 5⟩

end Dbg

namespace Dbg

/-- C1 counterexample: with threshold err, show_file_line true and
show_date_time false (and no log file configured beyond that), err "boom"
issued at line 42 of file x in function f writes the bare text boom to the
console; no emitted line equals the claimed header carrying line, because
Dbg.__print passes the raw text to sys.stdout.write and only the log file
write goes through __format_line. -/
theorem c1_console_line_unformatted :
    err cfgScenA "" siteScenA "boom" = ⟨["boom\n"], []⟩ ∧
    ("boom\n" : String) ≠ "[x:f():42] boom" ∧
    ("boom\n" : String) ≠ "[x:f():42] boom\n" := by
  refine ⟨by decide, by decide, by decide⟩

/-- C1 amended: for the scenario A logger the formatted line
[x:f():42] boom is produced on the log file when one is attached, while the
console receives the bare text boom; the header precedes the text only on
the log file line. -/
theorem c1_formatted_line_on_log_file :
    err cfgScenALog "" siteScenA "boom" =
      ⟨["boom\n"], ["[x:f():42] boom\n"]⟩ := by
  decide

/-- C3 counterexample: with the allow list f,g and the line range 10..20
set, a call site in function f at line 42 (outside the range) is NOT
suppressed by Dbg.__filter, though the claimed characterization (modelled as
suppressSpec) says it must be: the function name match returns False at once
and the line range is never consulted. -/
theorem c3_func_match_bypasses_range :
    filterSite cfgFuncRange siteScenA = false ∧
    suppressSpec cfgFuncRange siteScenA = true := by
  refine ⟨by decide, by decide⟩

/-- C3 amended: Dbg.__filter suppresses exactly when the file name filter is
set and differs from the call site file, or the function name filter is set
and the function is absent from the comma delimited list, or no function
filter is set and a configured line bound is violated.  In particular a call
site whose function matches the allow list is never suppressed, whatever its
line. -/
theorem c3_filter_characterization (cfg : Config) (site : CallSite) :
    filterSite cfg site = true ↔
      ((∃ f, cfg.fnm = some f ∧ site.fnm ≠ f) ∨
       (∃ l, cfg.func = some l ∧ (pySplitComma l).contains site.func = false) ∨
       (cfg.func = none ∧
         ((∃ b, cfg.ln_beg = some b ∧ site.ln < b) ∨
          (∃ e, cfg.ln_end = some e ∧ site.ln > e)))) := by
  rcases hf : cfg.fnm with _ | f <;>
  rcases hu : cfg.func with _ | l <;>
  rcases hb : cfg.ln_beg with _ | b <;>
  rcases he : cfg.ln_end with _ | e <;>
    simp [filterSite, fnmReject, lnBegReject, lnEndReject, hf, hu, hb, he] <;>
    by_cases hc : (pySplitComma l).contains site.func <;>
    simp [hc] <;> tauto

/-- C4 counterexample: with both header flags off, Dbg.__format_line does
not return the text unchanged: it appends a newline. -/
theorem c4_format_appends_newline :
    format_line cfgNoHdr "" ERR siteScenA "abc" = "abc\n" ∧
    format_line cfgNoHdr "" ERR siteScenA "abc" ≠ "abc" := by
  refine ⟨by decide, by decide⟩

/-- C4 amended: with show_date_time and show_file_line both false,
Dbg.__format_line returns the text with no header and nothing else added
except the terminating newline. -/
theorem c4_format_no_header (cfg : Config) (now : String) (dlvl : Int)
    (site : CallSite) (txt : String)
    (h1 : cfg.date_n_time = false) (h2 : cfg.file_n_line = false) :
    format_line cfg now dlvl site txt = txt ++ "\n" := by
  simp [format_line, h1, h2]

/-- Witness for c4_format_no_header at the concrete no header
configuration. -/
theorem c4_format_no_header_witness :
    cfgNoHdr.date_n_time = false ∧ cfgNoHdr.file_n_line = false ∧
    format_line cfgNoHdr "" ERR siteScenA "abc" = "abc" ++ "\n" :=
  ⟨rfl, rfl, c4_format_no_header cfgNoHdr "" ERR siteScenA "abc" rfl rfl⟩

/-- C5: monotonic gating.  Each of the eight emit wrappers is emitAt at its
level constant, guarded by dlvl >= level; when the configured threshold is
strictly below the emission level the wrapper returns before Dbg.__print,
so nothing is written to the console or to the log file. -/
theorem c5_monotonic_gating (cfg : Config) (now : String) (l2 : Int)
    (site : CallSite) (txt : String) (h : cfg.dlvl < l2) :
    emitAt cfg now l2 site txt = Output.empty := by
  unfold emitAt
  rw [if_neg (not_le.mpr h)]

/-- Witness for c5_monotonic_gating: threshold err, emission at dbg level,
no output anywhere. -/
theorem c5_monotonic_gating_witness :
    cfgScenA.dlvl < DBG ∧ emitAt cfgScenA "" DBG siteScenA "t" = Output.empty :=
  ⟨by decide, c5_monotonic_gating cfgScenA "" DBG siteScenA "t" (by decide)⟩

/-- C7: with log_only and force_out both set, an OUT level emit writes its
line only to the log file; the console receives nothing, because the clause
of Dbg.__print that would honor force_out is commented out (dbg.py line 309)
and the stdout write is guarded solely by log_only — contradicting the
docstring, which promises that force_out forces out level lines to be
displayed even in log_only mode. -/
theorem c7_force_out_not_honored :
    cfgLogOnly.force_out = true ∧ cfgLogOnly.log_only = true ∧
    (out cfgLogOnly "" siteScenA "hello").console = [] ∧
    (out cfgLogOnly "" siteScenA "hello").file ≠ [] := by
  refine ⟨rfl, rfl, by decide, by decide⟩

/-- Appending an output to the empty output gives it back. -/
theorem Output.empty_append (o : Output) :
    Output.append Output.empty o = o := by
  cases o
  simp [Output.append, Output.empty]

/-- When tracing is off, the optional depth argument of Dbg.__print is
irrelevant: the indentation branch is never taken. -/
theorem printLine_dpth_irrelevant (cfg : Config) (now : String) (l : Int)
    (txt : String) (d : Int) (site : CallSite) (h : cfg.trc = false) :
    printLine cfg now l txt (some d) site =
      printLine cfg now l txt none site := by
  simp [printLine, h]

/-- C2 counterexample: A and B are two distinct Dbg objects.  Before any
recording, hasMessages observed through B is false; A records one message —
appending to the class level buffer that attribute lookup resolves for every
instance — and hasMessages observed through B becomes true.  Recording on A
changed the observation on B, because dmsgs (dbg.py line 82) is a class body
list that no method ever rebinds per instance. -/
theorem c2_shared_buffer_counterexample :
    (⟨"A"⟩ : DbgInstance) ≠ (⟨"B"⟩ : DbgInstance) ∧
    errsOn [] ⟨"B"⟩ = false ∧
    msgOn [] ⟨"A"⟩ ERR siteScenA "boom" = Except.ok [mObjErrBoom] ∧
    errsOn [mObjErrBoom] ⟨"B"⟩ = true := by
  refine ⟨by decide, rfl, rfl, rfl⟩

/-- C2 amended: the buffered message sequence is class level state shared by
every Dbg object, so a successful record through any instance A leaves the
shared buffer non empty and hasMessages observed through every instance B
(including B distinct from A) returns true, and what B drains includes the
message A recorded. -/
theorem c2_record_visible_to_all_instances (cls : List MsgObj)
    (a b : DbgInstance) (dlvl : Int) (site : CallSite) (txt : String)
    (cls' : List MsgObj)
    (h : msgOn cls a dlvl site txt = Except.ok cls') :
    errsOn cls' b = true := by
  unfold msgOn msg dmsgsOf at h
  split at h
  · simp at h
  · rw [Except.ok.injEq] at h
    subst h
    simp [errsOn, dmsgsOf, errs]

/-- Witness for c2_record_visible_to_all_instances at a concrete record. -/
theorem c2_record_visible_witness :
    errsOn [mObjErrBoom] ⟨"B"⟩ = true :=
  c2_record_visible_to_all_instances [] ⟨"A"⟩ ⟨"B"⟩ ERR siteScenA "boom"
    [mObjErrBoom] rfl

/-- C6 counterexample: with threshold err, recording a dbg level message and
immediately draining writes the text to the console, while the corresponding
direct gated emit Dbg.dbg writes nothing: Dbg.msg never checks the threshold
and Dbg.msgs replays whatever is buffered, so the drain path bypasses the
level gate that the direct path enforces. -/
theorem c6_drain_bypasses_threshold :
    msg [] DBG siteScenA "xx" = Except.ok [mObjDbgXx] ∧
    (msgs cfgScenA "" [mObjDbgXx] none none none none none none none true
        siteScenA).1 = ⟨["xx\n"], []⟩ ∧
    dbg cfgScenA "" siteScenA "xx" = Output.empty ∧
    (⟨["xx\n"], []⟩ : Output) ≠ Output.empty := by
  refine ⟨rfl, by decide, by decide, by decide⟩

/-- C6 amended: record followed immediately by drain (no overrides) produces
the same output as the corresponding direct gated emit PROVIDED the recorded
level passes the configured threshold, file_func_line is off, tracing is off
and the drain is issued at the same live call site as the emit would be;
when the level exceeds the threshold the drain still emits while the direct
call emits nothing (see the counterexample). -/
theorem c6_record_drain_equals_emit (cfg : Config) (now : String) (lvl : Int)
    (site : CallSite) (txt : String) (dm : List MsgObj)
    (hg : lvl ≤ cfg.dlvl) (hffl : cfg.file_func_line = false)
    (htrc : cfg.trc = false)
    (hrec : msg [] lvl site txt = Except.ok dm) :
    (msgs cfg now dm none none none none none none none true site).1 =
      emitAt cfg now lvl site txt := by
  unfold msg at hrec
  split at hrec
  · simp at hrec
  · rw [Except.ok.injEq] at hrec
    subst hrec
    simp [msgs, drainSkip, hffl, htrc, hg, emitAt, Output.empty_append,
      printLine_dpth_irrelevant]

/-- Witness for c6_record_drain_equals_emit: threshold dbg, an err level
message recorded and drained from the scenario A site. -/
theorem c6_record_drain_equals_emit_witness :
    ERR ≤ cfgDbgLvl.dlvl ∧
    (msgs cfgDbgLvl "" [mObjErrT] none none none none none none none true
        siteScenA).1 = emitAt cfgDbgLvl "" ERR siteScenA "t" :=
  ⟨by decide, c6_record_drain_equals_emit cfgDbgLvl "" ERR siteScenA "t"
    [mObjErrT] (by decide) rfl rfl rfl⟩

/-- C8: construction fails exactly when the level name is not a key of the
levels dict, or log_only is passed True with no log file; for recognized
inputs Dbg.__init__ produces a configured object without raising. -/
theorem c8_init_error_conditions (lvl : String) (trc : Bool)
    (log_file : Option String)
    (log_only force_out date_n_time file_n_line : Option Bool)
    (hdr_date_format : Option String) (file_func_line : Option Bool)
    (file_name func_name : Option String) (line_begin line_end : Option Int) :
    (∃ c, init lvl trc log_file log_only force_out date_n_time file_n_line
        hdr_date_format file_func_line file_name func_name line_begin line_end
        = Except.ok c) ↔
      ((levels.find? (fun p => p.1 == lvl)).isSome ∧
       ¬(log_only = some true ∧ log_file = none)) := by
  rcases h : levels.find? (fun p => p.1 == lvl) with _ | p
  · simp [init, h]
  · by_cases hc : (log_only = some true ∧ log_file = none)
    · simp [init, h, hc]
    · simp [init, h, hc]

/-- C9: line range boundary semantics differ between the two paths.  The
replay skip test of Dbg.msgs keeps a buffered message at line L exactly when
begin is at most L and L is strictly below end (end exclusive, dbg.py line
137), while the live Dbg.__filter — with no file or function filter set —
keeps a call site at line L exactly when begin is at most L and L is at most
end (end inclusive, dbg.py lines 254-255). -/
theorem c9_range_semantics (b e : Int) (m : MsgObj) (cfg : Config)
    (site : CallSite)
    (hfnm : cfg.fnm = none) (hfunc : cfg.func = none)
    (hb : cfg.ln_beg = some b) (he : cfg.ln_end = some e) :
    (drainSkip none none none (some b) (some e) m = false ↔
      b ≤ m.ln ∧ m.ln < e) ∧
    (filterSite cfg site = false ↔ b ≤ site.ln ∧ site.ln ≤ e) := by
  constructor
  · simp [drainSkip]
  · simp [filterSite, fnmReject, lnBegReject, lnEndReject, hfnm, hfunc,
      hb, he]

/-- Witness for c9_range_semantics at the range 10..20, a buffered message
at line 15 and the scenario A site. -/
theorem c9_range_semantics_witness :
    cfgRangeOnly.fnm = none ∧ cfgRangeOnly.func = none ∧
    cfgRangeOnly.ln_beg = some 10 ∧ cfgRangeOnly.ln_end = some 20 ∧
    ((drainSkip none none none (some 10) (some 20) mObjLn15 = false ↔
       (10 : Int) ≤ mObjLn15.ln ∧ mObjLn15.ln < 20) ∧
     (filterSite cfgRangeOnly siteScenA = false ↔
       (10 : Int) ≤ siteScenA.ln ∧ siteScenA.ln ≤ 20)) :=
  ⟨rfl, rfl, rfl, rfl,
   c9_range_semantics 10 20 mObjLn15 cfgRangeOnly siteScenA rfl rfl rfl rfl⟩

/-- C10: trace output is independent of the configured threshold.  For any
two thresholds the enter and leave helpers produce identical output:
Dbg.__enter and Dbg.__leave consult only the trc flag, the live filter, the
log_only flag and the log handle, never self.dlvl. -/
theorem c10_trace_threshold_independent (cfg : Config) (t1 t2 : Int)
    (now : String) (site : CallSite) (m : String) :
    enterTrace { cfg with dlvl := t1 } now site m =
      enterTrace { cfg with dlvl := t2 } now site m ∧
    leaveTrace { cfg with dlvl := t1 } now site m =
      leaveTrace { cfg with dlvl := t2 } now site m := by
  cases cfg
  exact ⟨rfl, rfl⟩

end Dbg
